import Mathlib

/-!
Verification of the libindi-scope guard family (src/indi/scope.hpp).

The header defines three scope guards:

* `scope_exit<EF>`    : fires its stored callable on any destruction while
  the `_execute_on_destruction` flag is still set;
* `scope_fail<EF>`    : samples `std::uncaught_exceptions()` at construction
  into `_uncaught_on_creation` and fires at destruction only when the current
  count is strictly greater than that baseline;
* `scope_success<EF>` : same baseline, but fires only when the current count
  is not greater than the baseline.

We shallowly embed the control state of each guard (the flag, respectively
the `int` baseline), the constructor (including its function-try-block and
the `move_init_if_noexcept` move-or-copy selection), the move constructor,
`release()`, and the destructor.  The deferred action is modelled by counting
its invocations; error propagation out of a constructor is modelled with
`Except`.  The C++ `int` is modelled as `Int`, with the C++ guarantee that
the ambient uncaught-exception count lies in `[0, intMax]` taken as a
hypothesis where the source relies on it (its comments at `release()` state
exactly this).
-/

namespace LibindiScope

/-- The value of `std::numeric_limits<int>::max()` for the 32-bit `int` the
source targets; `scope_fail::release` stores this sentinel. -/
def intMax : Int := 2147483647

/-- A lifecycle event applied to a live guard: a call to `release()`, or a
move-construction of a fresh guard from it (after which the source guard is
disarmed and only awaits destruction). -/
inductive LifeOp
  | release
  | move
deriving DecidableEq

namespace scope_exit

/-- Control state of `indi::scope_exit`: the `_execute_on_destruction` flag
(the stored callable has no influence on the firing decision). -/
structure State where
  execute_on_destruction : Bool
deriving DecidableEq

/-- A successful constructor run: the member initializer sets
`_execute_on_destruction{true}`. -/
def construct : State := ⟨true⟩

/-- `scope_exit::release()` sets `_execute_on_destruction = false`. -/
def State.release (_s : State) : State := ⟨false⟩

/-- `~scope_exit()` runs `_exit_function()` iff `_execute_on_destruction`;
returned is the number of invocations of the deferred action. -/
def State.destructInvokes (s : State) : Nat :=
  if s.execute_on_destruction then 1 else 0

/-- `scope_exit(scope_exit&& other)`: the new guard copies
`other._execute_on_destruction`, then `other.release()` runs.  Result is
(moved-to state, moved-from state after the move). -/
def moveConstruct (other : State) : State × State :=
  (⟨other.execute_on_destruction⟩, other.release)

/-- The wrapping constructor with its function-try-block: if initializing
`_exit_function` fails, the handler `catch (...) { f(); }` invokes the
caller's original callable once and the same exception re-propagates
(a constructor function-try-block always rethrows).  Returned is the
constructed state or the propagated error, paired with the number of
invocations of the original callable `f`. -/
def constructFrom {E : Type} (initResult : Except E Unit) : Except E State × Nat :=
  match initResult with
  | Except.error e => (Except.error e, 1)
  | Except.ok _ => (Except.ok construct, 0)

end scope_exit

namespace scope_fail

/-- Control state of `indi::scope_fail`: the `int _uncaught_on_creation`
baseline. -/
structure State where
  uncaught_on_creation : Int
deriving DecidableEq

/-- A successful constructor run: `_uncaught_on_creation` is initialized
with the ambient `std::uncaught_exceptions()` value. -/
def construct (uncaught : Int) : State := ⟨uncaught⟩

/-- `scope_fail::release()` sets `_uncaught_on_creation` to
`std::numeric_limits<int>::max()`. -/
def State.release (_s : State) : State := ⟨intMax⟩

/-- `~scope_fail()` runs `_exit_function()` iff
`std::uncaught_exceptions() > _uncaught_on_creation`, where `uncaught` is
the ambient count at destruction time. -/
def State.destructInvokes (s : State) (uncaught : Int) : Nat :=
  if uncaught > s.uncaught_on_creation then 1 else 0

/-- `scope_fail(scope_fail&& other)`: the new guard copies
`other._uncaught_on_creation`, then `other.release()` runs. -/
def moveConstruct (other : State) : State × State :=
  (⟨other.uncaught_on_creation⟩, other.release)

/-- The wrapping constructor with its function-try-block, as for
`scope_exit`: on initialization failure the handler invokes `f()` once and
the error re-propagates; on success the baseline is the ambient count. -/
def constructFrom {E : Type} (initResult : Except E Unit) (uncaught : Int) :
    Except E State × Nat :=
  match initResult with
  | Except.error e => (Except.error e, 1)
  | Except.ok _ => (Except.ok (construct uncaught), 0)

end scope_fail

namespace scope_success

/-- Control state of `indi::scope_success`: the `int _uncaught_on_creation`
baseline. -/
structure State where
  uncaught_on_creation : Int
deriving DecidableEq

/-- A successful constructor run: `_uncaught_on_creation` is initialized
with the ambient `std::uncaught_exceptions()` value. -/
def construct (uncaught : Int) : State := ⟨uncaught⟩

/-- `scope_success::release()` sets `_uncaught_on_creation = -1`. -/
def State.release (_s : State) : State := ⟨-1⟩

/-- `~scope_success()` runs `_exit_function()` iff
`std::uncaught_exceptions() <= _uncaught_on_creation`. -/
def State.destructInvokes (s : State) (uncaught : Int) : Nat :=
  if uncaught ≤ s.uncaught_on_creation then 1 else 0

/-- `scope_success(scope_success&& other)`: the new guard copies
`other._uncaught_on_creation`, then `other.release()` runs. -/
def moveConstruct (other : State) : State × State :=
  (⟨other.uncaught_on_creation⟩, other.release)

/-- The wrapping constructor of `scope_success` has NO function-try-block:
if initializing `_exit_function` fails the error propagates and `f` is never
invoked. -/
def constructFrom {E : Type} (initResult : Except E Unit) (uncaught : Int) :
    Except E State × Nat :=
  match initResult with
  | Except.error e => (Except.error e, 0)
  | Except.ok _ => (Except.ok (construct uncaught), 0)

end scope_success

namespace scope_exit

/-- Applies a sequence of lifecycle events to a live `scope_exit` guard:
returns the final live state together with the moved-from states left
behind by each move (each awaiting only its own destruction). -/
def runOps : State → List LifeOp → State × List State
  | s, [] => (s, [])
  | s, LifeOp.release :: ops => runOps s.release ops
  | s, LifeOp.move :: ops =>
    let r := runOps (moveConstruct s).1 ops
    (r.1, (moveConstruct s).2 :: r.2)

/-- Total number of invocations of the deferred action when every guard of
the chain is destroyed: the final guard plus all moved-from guards. -/
def chainInvocations (s : State) (ops : List LifeOp) : Nat :=
  (runOps s ops).1.destructInvokes
    + ((runOps s ops).2.map State.destructInvokes).sum

end scope_exit

namespace scope_fail

/-- Applies a sequence of lifecycle events to a live `scope_fail` guard:
returns the final live state together with the moved-from states left
behind by each move. -/
def runOps : State → List LifeOp → State × List State
  | s, [] => (s, [])
  | s, LifeOp.release :: ops => runOps s.release ops
  | s, LifeOp.move :: ops =>
    let r := runOps (moveConstruct s).1 ops
    (r.1, (moveConstruct s).2 :: r.2)

/-- Total number of invocations of the deferred action when every guard of
the chain is destroyed: the final guard at ambient count `c`, the i-th
moved-from guard at ambient count `cs i`. -/
def chainInvocations (s : State) (ops : List LifeOp) (cs : List Int) (c : Int) : Nat :=
  (runOps s ops).1.destructInvokes c
    + (List.zipWith State.destructInvokes (runOps s ops).2 cs).sum

end scope_fail

namespace scope_success

/-- Applies a sequence of lifecycle events to a live `scope_success` guard:
returns the final live state together with the moved-from states left
behind by each move. -/
def runOps : State → List LifeOp → State × List State
  | s, [] => (s, [])
  | s, LifeOp.release :: ops => runOps s.release ops
  | s, LifeOp.move :: ops =>
    let r := runOps (moveConstruct s).1 ops
    (r.1, (moveConstruct s).2 :: r.2)

/-- Total number of invocations of the deferred action when every guard of
the chain is destroyed: the final guard at ambient count `c`, the i-th
moved-from guard at ambient count `cs i`. -/
def chainInvocations (s : State) (ops : List LifeOp) (cs : List Int) (c : Int) : Nat :=
  (runOps s ops).1.destructInvokes c
    + (List.zipWith State.destructInvokes (runOps s ops).2 cs).sum

end scope_success

/-- Outcome of running a guard destructor, with respect to an error raised
by the deferred action while it is being invoked. -/
inductive DtorOutcome
  | completed
  | propagated
  | terminated
deriving DecidableEq

/-- Runs a destructor body that invokes the action iff `fires`, under the
C++ rule that an exception escaping a function whose exception
specification is `noexcept` calls `std::terminate`, while from a
potentially-throwing function it propagates to the caller. -/
def dtorRun (noexceptSpec fires actionThrows : Bool) : DtorOutcome :=
  if fires && actionThrows then
    if noexceptSpec then DtorOutcome.terminated else DtorOutcome.propagated
  else DtorOutcome.completed

namespace scope_exit

/-- `~scope_exit()` is declared with no exception specification, so per the
C++ implicit rule for destructors it is `noexcept` exactly when every
subobject destructor is; for a stored callable whose destructor does not
throw (the `bool` member and the empty base always qualify) this is
`noexcept(true)`, independent of the call operator. -/
def dtorNoexcept (efDtorNothrow : Bool) : Bool := efDtorNothrow

end scope_exit

namespace scope_fail

/-- `~scope_fail()` is declared with no exception specification, so it is
implicitly `noexcept` exactly when every subobject destructor is (the `int`
member and the empty base always qualify), independent of the call
operator. -/
def dtorNoexcept (efDtorNothrow : Bool) : Bool := efDtorNothrow

end scope_fail

namespace scope_success

/-- `~scope_success()` carries the explicit specification
`noexcept(noexcept(_exit_function()))`: its noexcept-ness is exactly the
call operator's. -/
def dtorNoexcept (_efDtorNothrow : Bool) (callNothrow : Bool) : Bool := callNothrow

end scope_success

/-- Which kind of glvalue `_detail_X_scope::move_init_if_noexcept<T, U>`
returns, and hence whether the guard-owned callable is copy-initialized or
move-initialized from the constructor argument. -/
inductive BindKind
  | copy
  | move
deriving DecidableEq

/-- `_detail_X_scope::move_init_if_noexcept<T, U>(U& u)`: if `U` is an
lvalue reference it returns an lvalue (copy-bind); otherwise it returns an
rvalue (move-bind) iff `std::is_nothrow_constructible_v<T, U>` holds, and an
lvalue (copy-bind) otherwise. -/
def move_init_if_noexcept (uIsLvalueRef : Bool) (nothrowConstructible : Bool) : BindKind :=
  if uIsLvalueRef then BindKind.copy
  else if nothrowConstructible then BindKind.move
  else BindKind.copy

/-- Claim C1: for a `scope_success` guard with baseline `b` sampled at
construction and ambient uncaught-exception count `c` at destruction, the
destructor invokes the deferred action iff `c ≤ b`; in particular with
`0 < b` and `c = b` (an unrelated pre-existing unwinding still in flight)
it fires, and with `c > b` (a new unwinding) it does not. -/
theorem scope_success_fires_iff_count_not_greater (b c : Int) :
    ((scope_success.construct b).destructInvokes c = 1 ↔ c ≤ b)
    ∧ (0 < b → (scope_success.construct b).destructInvokes b = 1)
    ∧ (b < c → (scope_success.construct b).destructInvokes c = 0) := by
  simp only [scope_success.construct, scope_success.State.destructInvokes]
  refine ⟨?_, ?_, ?_⟩
  · split <;> simp_all
  · intro _
    simp
  · intro h
    rw [if_neg (by omega)]

/-- Witness for C1 at baseline 1, destruction counts 1 and 2. -/
theorem scope_success_fires_iff_count_not_greater_witness :
    (((scope_success.construct 1).destructInvokes 1 = 1 ↔ (1 : Int) ≤ 1)
      ∧ ((0 : Int) < 1 → (scope_success.construct 1).destructInvokes 1 = 1)
      ∧ ((1 : Int) < 1 → (scope_success.construct 1).destructInvokes 1 = 0))
    ∧ ((scope_success.construct 1).destructInvokes 2 = 0) :=
  ⟨scope_success_fires_iff_count_not_greater 1 1,
   (scope_success_fires_iff_count_not_greater 1 2).2.2 (by decide)⟩

/-- Claim C2: for a `scope_fail` guard with baseline `b` sampled at
construction and ambient uncaught-exception count `c` at destruction, the
destructor invokes the deferred action iff `c > b`; in particular a guard
constructed at an already-elevated count and destroyed with the count
unchanged does not fire. -/
theorem scope_fail_fires_iff_count_greater (b c : Int) :
    ((scope_fail.construct b).destructInvokes c = 1 ↔ b < c)
    ∧ ((scope_fail.construct b).destructInvokes b = 0) := by
  simp only [scope_fail.construct, scope_fail.State.destructInvokes]
  constructor
  · split <;> simp_all
  · rw [if_neg (by omega)]

/-- Claim C3: when initializing the guard-owned callable throws during
construction, `scope_exit` and `scope_fail` invoke the caller's original
callable exactly once and the same error propagates, while `scope_success`
propagates the same error with zero invocations. -/
theorem construction_failure_invocation_policy {E : Type} (e : E) (uncaught : Int) :
    scope_exit.constructFrom (Except.error e) = (Except.error e, 1)
    ∧ scope_fail.constructFrom (Except.error e) uncaught = (Except.error e, 1)
    ∧ scope_success.constructFrom (Except.error e) uncaught = (Except.error e, 0) :=
  ⟨rfl, rfl, rfl⟩

/-- A released `scope_exit` guard never fires at destruction. -/
theorem scope_exit_released_never_fires (s : scope_exit.State) :
    (s.release).destructInvokes = 0 := rfl

/-- A released `scope_fail` guard never fires at destruction, for any
ambient count that fits in the source's `int` (the source comment at
`scope_fail::release` records exactly this bound). -/
theorem scope_fail_released_never_fires (s : scope_fail.State) (c : Int)
    (h : c ≤ intMax) : (s.release).destructInvokes c = 0 := by
  simp only [intMax] at h
  simp only [scope_fail.State.release, scope_fail.State.destructInvokes, intMax]
  rw [if_neg (by omega)]

/-- A released `scope_success` guard never fires at destruction, for any
non-negative ambient count (the source comment at `scope_success::release`
records exactly this bound). -/
theorem scope_success_released_never_fires (s : scope_success.State) (c : Int)
    (h : 0 ≤ c) : (s.release).destructInvokes c = 0 := by
  simp only [scope_success.State.release, scope_success.State.destructInvokes]
  rw [if_neg (by omega)]

/-- Claim C4: move-construction transfers firing responsibility for all
three variants: the moved-from guard is the released state and contributes 0
invocations at its own destruction (at any admissible ambient count `c1`),
and the pair (moved-from, moved-to) together invokes the action exactly as
often as the unmoved guard would have at the moved-to guard's destruction
(ambient count `c2`). -/
theorem move_transfers_firing_responsibility (s : scope_exit.State)
    (bf bs c1 c2 : Int) (hc0 : 0 ≤ c1) (hcM : c1 ≤ intMax) :
    ((scope_exit.moveConstruct s).2 = s.release
      ∧ (scope_exit.moveConstruct s).2.destructInvokes = 0
      ∧ (scope_exit.moveConstruct s).1.destructInvokes
          + (scope_exit.moveConstruct s).2.destructInvokes = s.destructInvokes)
    ∧ ((scope_fail.moveConstruct (scope_fail.construct bf)).2
          = (scope_fail.construct bf).release
      ∧ (scope_fail.moveConstruct (scope_fail.construct bf)).2.destructInvokes c1 = 0
      ∧ (scope_fail.moveConstruct (scope_fail.construct bf)).1.destructInvokes c2
          + (scope_fail.moveConstruct (scope_fail.construct bf)).2.destructInvokes c1
          = (scope_fail.construct bf).destructInvokes c2)
    ∧ ((scope_success.moveConstruct (scope_success.construct bs)).2
          = (scope_success.construct bs).release
      ∧ (scope_success.moveConstruct (scope_success.construct bs)).2.destructInvokes c1 = 0
      ∧ (scope_success.moveConstruct (scope_success.construct bs)).1.destructInvokes c2
          + (scope_success.moveConstruct (scope_success.construct bs)).2.destructInvokes c1
          = (scope_success.construct bs).destructInvokes c2) := by
  refine ⟨⟨rfl, rfl, ?_⟩, ⟨rfl, ?_, ?_⟩, ⟨rfl, ?_, ?_⟩⟩
  · show s.destructInvokes + (s.release).destructInvokes = s.destructInvokes
    rw [scope_exit_released_never_fires]
    exact Nat.add_zero _
  · show ((scope_fail.construct bf).release).destructInvokes c1 = 0
    exact scope_fail_released_never_fires _ _ hcM
  · show (scope_fail.construct bf).destructInvokes c2
        + ((scope_fail.construct bf).release).destructInvokes c1
        = (scope_fail.construct bf).destructInvokes c2
    rw [scope_fail_released_never_fires _ _ hcM]
    exact Nat.add_zero _
  · show ((scope_success.construct bs).release).destructInvokes c1 = 0
    exact scope_success_released_never_fires _ _ hc0
  · show (scope_success.construct bs).destructInvokes c2
        + ((scope_success.construct bs).release).destructInvokes c1
        = (scope_success.construct bs).destructInvokes c2
    rw [scope_success_released_never_fires _ _ hc0]
    exact Nat.add_zero _

/-- Witness for C4 at an armed `scope_exit`, baselines 0, counts 0 and 0. -/
theorem move_transfers_firing_responsibility_witness :
    (scope_exit.moveConstruct ⟨true⟩).1.destructInvokes
        + (scope_exit.moveConstruct ⟨true⟩).2.destructInvokes
        = scope_exit.State.destructInvokes ⟨true⟩
    ∧ (scope_fail.moveConstruct (scope_fail.construct 0)).1.destructInvokes 0
        + (scope_fail.moveConstruct (scope_fail.construct 0)).2.destructInvokes 0
        = (scope_fail.construct 0).destructInvokes 0 :=
  ⟨(move_transfers_firing_responsibility ⟨true⟩ 0 0 0 0 (by decide)
      (by unfold intMax; decide)).1.2.2,
   (move_transfers_firing_responsibility ⟨true⟩ 0 0 0 0 (by decide)
      (by unfold intMax; decide)).2.1.2.2⟩

/-- Iterating `scope_exit::release` at least once yields the released
state. -/
theorem scope_exit_iterate_release (m : Nat) (s : scope_exit.State) :
    (scope_exit.State.release)^[m + 1] s = s.release := by
  induction m generalizing s with
  | zero => rfl
  | succ k ih =>
    rw [Function.iterate_succ_apply]
    exact ih s.release

/-- Iterating `scope_fail::release` at least once yields the released
state. -/
theorem scope_fail_iterate_release (m : Nat) (s : scope_fail.State) :
    (scope_fail.State.release)^[m + 1] s = s.release := by
  induction m generalizing s with
  | zero => rfl
  | succ k ih =>
    rw [Function.iterate_succ_apply]
    exact ih s.release

/-- Iterating `scope_success::release` at least once yields the released
state. -/
theorem scope_success_iterate_release (m : Nat) (s : scope_success.State) :
    (scope_success.State.release)^[m + 1] s = s.release := by
  induction m generalizing s with
  | zero => rfl
  | succ k ih =>
    rw [Function.iterate_succ_apply]
    exact ih s.release

/-- Claim C5: after any positive number `n` of `release()` calls, the
destructor of each variant invokes nothing, at every admissible ambient
uncaught-exception count `c` (including `0` and `intMax`); in particular a
constructed-and-immediately-released guard yields 0 invocations. -/
theorem release_permanently_disarms (n : Nat) (hn : 1 ≤ n)
    (s : scope_exit.State) (bf bs c : Int) (hc0 : 0 ≤ c) (hcM : c ≤ intMax) :
    ((scope_exit.State.release)^[n] s).destructInvokes = 0
    ∧ ((scope_fail.State.release)^[n] (scope_fail.construct bf)).destructInvokes c = 0
    ∧ ((scope_success.State.release)^[n] (scope_success.construct bs)).destructInvokes c = 0 := by
  obtain ⟨m, rfl⟩ : ∃ m, n = m + 1 := ⟨n - 1, by omega⟩
  rw [scope_exit_iterate_release, scope_fail_iterate_release,
    scope_success_iterate_release]
  exact ⟨scope_exit_released_never_fires s,
    scope_fail_released_never_fires _ c hcM,
    scope_success_released_never_fires _ c hc0⟩

/-- Witness for C5: two releases, then destruction at ambient count 0. -/
theorem release_permanently_disarms_witness :
    ((scope_exit.State.release)^[2] scope_exit.construct).destructInvokes = 0
    ∧ ((scope_fail.State.release)^[2] (scope_fail.construct 0)).destructInvokes 0 = 0
    ∧ ((scope_success.State.release)^[2] (scope_success.construct 0)).destructInvokes 0 = 0 :=
  release_permanently_disarms 2 (by decide) scope_exit.construct 0 0 0
    (by decide) (by unfold intMax; decide)

/-- Claim C10: move-construction of `scope_fail` and `scope_success` copies
the source's stored baseline unchanged into the moved-to guard, so the
moved-to guard's firing decision at every future ambient count `c` is
exactly the source's (also when the source holds a release sentinel). -/
theorem move_copies_baseline_unchanged (s : scope_fail.State)
    (t : scope_success.State) (c : Int) :
    (scope_fail.moveConstruct s).1.uncaught_on_creation = s.uncaught_on_creation
    ∧ (scope_success.moveConstruct t).1.uncaught_on_creation = t.uncaught_on_creation
    ∧ (scope_fail.moveConstruct s).1.destructInvokes c = s.destructInvokes c
    ∧ (scope_success.moveConstruct t).1.destructInvokes c = t.destructInvokes c :=
  ⟨rfl, rfl, rfl, rfl⟩

/-- Every moved-from guard left behind by a `scope_exit` lifecycle chain is
disarmed. -/
theorem scope_exit_graveyard_disarmed (ops : List LifeOp) (s : scope_exit.State) :
    ∀ st ∈ (scope_exit.runOps s ops).2, st.execute_on_destruction = false := by
  induction ops generalizing s with
  | nil =>
    intro st hst
    simp [scope_exit.runOps] at hst
  | cons op ops ih =>
    cases op with
    | release => exact fun st hst => ih _ st hst
    | move =>
      intro st hst
      simp only [scope_exit.runOps, List.mem_cons] at hst
      rcases hst with h | h
      · subst h
        rfl
      · exact ih _ st h

/-- Every moved-from guard left behind by a `scope_fail` lifecycle chain
holds the `intMax` release sentinel as its baseline. -/
theorem scope_fail_graveyard_sentinel (ops : List LifeOp) (s : scope_fail.State) :
    ∀ st ∈ (scope_fail.runOps s ops).2, st.uncaught_on_creation = intMax := by
  induction ops generalizing s with
  | nil =>
    intro st hst
    simp [scope_fail.runOps] at hst
  | cons op ops ih =>
    cases op with
    | release => exact fun st hst => ih _ st hst
    | move =>
      intro st hst
      simp only [scope_fail.runOps, List.mem_cons] at hst
      rcases hst with h | h
      · subst h
        rfl
      · exact ih _ st h

/-- Every moved-from guard left behind by a `scope_success` lifecycle chain
holds the `-1` release sentinel as its baseline. -/
theorem scope_success_graveyard_sentinel (ops : List LifeOp) (s : scope_success.State) :
    ∀ st ∈ (scope_success.runOps s ops).2, st.uncaught_on_creation = -1 := by
  induction ops generalizing s with
  | nil =>
    intro st hst
    simp [scope_success.runOps] at hst
  | cons op ops ih =>
    cases op with
    | release => exact fun st hst => ih _ st hst
    | move =>
      intro st hst
      simp only [scope_success.runOps, List.mem_cons] at hst
      rcases hst with h | h
      · subst h
        rfl
      · exact ih _ st h

/-- Destroying any number of sentinel-baseline `scope_fail` guards at
int-representable ambient counts yields zero invocations in total. -/
theorem scope_fail_sentinel_zipWith_sum_zero (l : List scope_fail.State)
    (cs : List Int) (hl : ∀ st ∈ l, st.uncaught_on_creation = intMax)
    (hcs : ∀ x ∈ cs, x ≤ intMax) :
    (List.zipWith scope_fail.State.destructInvokes l cs).sum = 0 := by
  induction l generalizing cs with
  | nil => simp
  | cons st l ih =>
    cases cs with
    | nil => simp
    | cons x cs =>
      simp only [List.zipWith_cons_cons, List.sum_cons]
      have h1 : st.uncaught_on_creation = intMax := hl st (List.mem_cons_self _ _)
      have h2 : x ≤ intMax := hcs x (List.mem_cons_self _ _)
      have h3 : st.destructInvokes x = 0 := by
        simp only [scope_fail.State.destructInvokes, h1]
        rw [if_neg (by omega)]
      rw [h3, ih cs (fun a ha => hl a (List.mem_cons_of_mem _ ha))
        (fun a ha => hcs a (List.mem_cons_of_mem _ ha))]

/-- Destroying any number of sentinel-baseline `scope_success` guards at
non-negative ambient counts yields zero invocations in total. -/
theorem scope_success_sentinel_zipWith_sum_zero (l : List scope_success.State)
    (cs : List Int) (hl : ∀ st ∈ l, st.uncaught_on_creation = -1)
    (hcs : ∀ x ∈ cs, 0 ≤ x) :
    (List.zipWith scope_success.State.destructInvokes l cs).sum = 0 := by
  induction l generalizing cs with
  | nil => simp
  | cons st l ih =>
    cases cs with
    | nil => simp
    | cons x cs =>
      simp only [List.zipWith_cons_cons, List.sum_cons]
      have h1 : st.uncaught_on_creation = -1 := hl st (List.mem_cons_self _ _)
      have h2 : 0 ≤ x := hcs x (List.mem_cons_self _ _)
      have h3 : st.destructInvokes x = 0 := by
        simp only [scope_success.State.destructInvokes, h1]
        rw [if_neg (by omega)]
      rw [h3, ih cs (fun a ha => hl a (List.mem_cons_of_mem _ ha))
        (fun a ha => hcs a (List.mem_cons_of_mem _ ha))]

/-- Claim C6: over every admissible lifecycle sequence of each guard
variant (construction with any initial state or baseline, any interleaving
of `release()` calls and at most one move per guard forming an arbitrary
chain, then destruction of every guard of the chain, each at its own
admissible ambient count), the deferred action is invoked at most once in
total. -/
theorem action_invoked_at_most_once (ops : List LifeOp) (s0 : scope_exit.State)
    (bf bs : Int) (cs : List Int) (c : Int)
    (hcs0 : ∀ x ∈ cs, 0 ≤ x) (hcsM : ∀ x ∈ cs, x ≤ intMax) :
    scope_exit.chainInvocations s0 ops ≤ 1
    ∧ scope_fail.chainInvocations (scope_fail.construct bf) ops cs c ≤ 1
    ∧ scope_success.chainInvocations (scope_success.construct bs) ops cs c ≤ 1 := by
  refine ⟨?_, ?_, ?_⟩
  · unfold scope_exit.chainInvocations
    have h0 : ((scope_exit.runOps s0 ops).2.map scope_exit.State.destructInvokes).sum = 0 := by
      apply List.sum_eq_zero
      intro x hx
      simp only [List.mem_map] at hx
      obtain ⟨st, hst, rfl⟩ := hx
      have hd := scope_exit_graveyard_disarmed ops s0 st hst
      simp [scope_exit.State.destructInvokes, hd]
    rw [h0]
    have h1 : (scope_exit.runOps s0 ops).1.destructInvokes ≤ 1 := by
      unfold scope_exit.State.destructInvokes
      split <;> omega
    omega
  · unfold scope_fail.chainInvocations
    rw [scope_fail_sentinel_zipWith_sum_zero _ cs
      (scope_fail_graveyard_sentinel ops _) hcsM]
    have h1 : (scope_fail.runOps (scope_fail.construct bf) ops).1.destructInvokes c ≤ 1 := by
      unfold scope_fail.State.destructInvokes
      split <;> omega
    omega
  · unfold scope_success.chainInvocations
    rw [scope_success_sentinel_zipWith_sum_zero _ cs
      (scope_success_graveyard_sentinel ops _) hcs0]
    have h1 : (scope_success.runOps (scope_success.construct bs) ops).1.destructInvokes c ≤ 1 := by
      unfold scope_success.State.destructInvokes
      split <;> omega
    omega

/-- Witness for C6: a chain with two moves and an intervening release,
every destruction at ambient count 0. -/
theorem action_invoked_at_most_once_witness :
    scope_exit.chainInvocations ⟨true⟩ [LifeOp.move, LifeOp.release, LifeOp.move] ≤ 1
    ∧ scope_fail.chainInvocations (scope_fail.construct 0)
        [LifeOp.move, LifeOp.release, LifeOp.move] [0, 0] 0 ≤ 1
    ∧ scope_success.chainInvocations (scope_success.construct 0)
        [LifeOp.move, LifeOp.release, LifeOp.move] [0, 0] 0 ≤ 1 :=
  action_invoked_at_most_once [LifeOp.move, LifeOp.release, LifeOp.move]
    ⟨true⟩ 0 0 [0, 0] 0 (by decide) (by decide)

/-- Claim C7 counterexample: an armed `scope_exit` guard whose deferred
action raises during invocation (with a stored callable whose destructor
does not throw): since `~scope_exit()` is implicitly `noexcept`, the error
does NOT propagate out of the destructor (`std::terminate` is reached
instead), refuting the claim that all three variants propagate. -/
theorem invocation_error_scope_exit_not_propagated :
    dtorRun (scope_exit.dtorNoexcept true) true true ≠ DtorOutcome.propagated := by
  decide

/-- Claim C7 as amended: the guard itself never suppresses an error raised
by the deferred action during destruction (the destructor never completes
normally in that case); for `scope_success` the destructor's noexcept-ness
is exactly the action's, so a throwing action's error propagates out of the
destructor; but for `scope_exit` and `scope_fail` the destructor is
implicitly `noexcept` (given a stored callable with non-throwing
destructor) and a throwing action reaches `std::terminate` rather than
propagating. -/
theorem invocation_error_propagation_policy :
    dtorRun (scope_success.dtorNoexcept true false) true true = DtorOutcome.propagated
    ∧ dtorRun (scope_exit.dtorNoexcept true) true true = DtorOutcome.terminated
    ∧ dtorRun (scope_fail.dtorNoexcept true) true true = DtorOutcome.terminated
    ∧ (∀ noexceptSpec, dtorRun noexceptSpec true true ≠ DtorOutcome.completed)
    ∧ (∀ efD callNothrow, scope_success.dtorNoexcept efD callNothrow = callNothrow) := by
  decide

/-- Claim C8: `move_init_if_noexcept` copy-binds for every lvalue argument;
for an rvalue it copy-binds when constructing the owned callable from the
rvalue is not statically non-throwing, and it move-binds exactly when the
argument is an rvalue and that construction is statically non-throwing. -/
theorem move_init_if_noexcept_policy :
    (∀ nothrowConstructible, move_init_if_noexcept true nothrowConstructible = BindKind.copy)
    ∧ move_init_if_noexcept false false = BindKind.copy
    ∧ (∀ lv nt, move_init_if_noexcept lv nt = BindKind.move ↔ lv = false ∧ nt = true) := by
  decide

end LibindiScope
